import Mathlib

/-!
Shallow embedding of the powercap_orin_ws DVFS tool (dvfs_tool.cpp,
dvfs_probe.cpp) and proofs about its discovery, I/O and sampling logic.

Bytes are modelled as `Nat` (one byte per list element), text values as
`String`, the filesystem as explicit oracles (read results, existence
flags, write success flags), and the monotonic clock / per-tick read
outcomes as functions of the tick index.
-/

namespace DvfsTool

/-! ### 1. Low-level sysfs I/O helpers (dvfs_tool.cpp lines 34-66)

`read_text` works on raw bytes: the C++ code reads at most 4095 bytes
into a buffer, NUL-terminates it, builds a `std::string` from the
`char*` (which stops at the first NUL byte), and pops trailing
newline / carriage-return / space / tab bytes. -/

/-- The trailing bytes popped by the `while (!s.empty() && ...)` loop:
newline (10), carriage return (13), space (32), tab (9). -/
def isTrailWS (b : Nat) : Bool := b == 10 || b == 13 || b == 32 || b == 9

/-- The trailing-whitespace pop loop of `read_text`. -/
def trimTrail (l : List Nat) : List Nat := (l.reverse.dropWhile isTrailWS).reverse

/-- `std::string s(buf)` on a NUL-terminated buffer: keep bytes up to the
first NUL. -/
def cString (l : List Nat) : List Nat := l.takeWhile (fun b => b != 0)

/-- Value produced by a successful read attempt on file content `content`:
the `read` syscall returns at most 4095 bytes (`sizeof(buf) - 1`). -/
def readValue (content : List Nat) : List Nat := trimTrail (cString (content.take 4095))

/-- `errno` value for a transient resource-temporarily-unavailable failure. -/
def EAGAIN : Nat := 11

/-- Outcome of one open-then-read attempt, as observed by `read_text`. -/
inductive Attempt where
  | openFail (errno : Nat)
  | readFail (errno : Nat)
  | readOk (content : List Nat)

/-- Whether an attempt outcome makes `read_text` sleep 1ms and retry. -/
def Attempt.isTransient : Attempt → Bool
  | .openFail e => e == EAGAIN
  | .readFail e => e == EAGAIN
  | .readOk _ => false

/-- What `read_text` returned together with how many attempts it made and
how many 1000-microsecond `usleep` calls it performed. -/
structure ReadOutcome where
  result : Option (List Nat)
  attemptsMade : Nat
  sleeps : Nat
deriving DecidableEq

/-- The `for (int attempt = 0; attempt < 3; ++attempt)` loop of `read_text`;
`oracle i` is the outcome of the i-th open/read attempt. -/
def readTextLoop (oracle : Nat → Attempt) : Nat → Nat → Nat → ReadOutcome
  | 0, made, slept => ⟨none, made, slept⟩
  | k + 1, made, slept =>
    match oracle made with
    | .openFail e =>
      if e == EAGAIN then readTextLoop oracle k (made + 1) (slept + 1)
      else ⟨none, made + 1, slept⟩
    | .readFail e =>
      if e == EAGAIN then readTextLoop oracle k (made + 1) (slept + 1)
      else ⟨none, made + 1, slept⟩
    | .readOk content => ⟨some (readValue content), made + 1, slept⟩

/-- `read_text` (dvfs_tool.cpp lines 34-56): up to 3 total attempts. -/
def read_text (oracle : Nat → Attempt) : ReadOutcome := readTextLoop oracle 3 0 0

/-- The `if (v.empty() || v.back() != '\n') v.push_back('\n')` step of
`write_text`: the payload handed to the single `write` syscall. -/
def payload (val : List Nat) : List Nat :=
  if val.isEmpty || val.getLast? != some 10 then val ++ [10] else val

/-- What `write_text` returned, what bytes it handed to `write`, and how
many `write` syscalls it issued. -/
structure WriteOutcome where
  success : Bool
  written : List Nat
  writeCalls : Nat
deriving DecidableEq

/-- `write_text` (dvfs_tool.cpp lines 58-66): `openOk` is whether
`open(path, O_WRONLY)` succeeded, `ret` the `write` return value. -/
def write_text (openOk : Bool) (ret : Int) (val : List Nat) : WriteOutcome :=
  if openOk then ⟨ret == ((payload val).length : Int), payload val, 1⟩
  else ⟨false, [], 0⟩

/-! ### 2. String helpers (std::string::find and friends) -/

/-- `hay.find(pat) != std::string::npos`: some suffix of `hay` starts
with `pat` (the empty pattern is always found). -/
def listContains (pat : List Char) : List Char → Bool
  | [] => pat.isEmpty
  | c :: t => pat.isPrefixOf (c :: t) || listContains pat t

/-- Substring containment on `String`, matching `std::string::find`. -/
def strContains (hay pat : String) : Bool := listContains pat.data hay.data

/-- `hay.rfind(pre, 0) == 0`: `hay` starts with `pre`. -/
def strStartsWith (hay pre : String) : Bool := pre.data.isPrefixOf hay.data

/-- A space or tab character (the set passed to `find_first_of(" \t")`). -/
def isSpaceTab (c : Char) : Bool := c == ' ' || c == '\t'

/-- Whitespace popped from the tail of the available-frequencies listing
in `cmd_unlock` (space, tab, newline, carriage return). -/
def isWsChar (c : Char) : Bool := c == ' ' || c == '\t' || c == '\n' || c == '\r'

/-- The trailing-whitespace pop loop in `cmd_unlock`. -/
def trimTrailStr (s : String) : String := ⟨(s.data.reverse.dropWhile isWsChar).reverse⟩

/-- `s.substr(0, s.find_first_of(" \t"))` (whole string when no separator). -/
def firstToken (s : String) : String := ⟨s.data.takeWhile (fun c => !isSpaceTab c)⟩

/-- `s.substr(s.find_last_of(" \t") + 1)` (whole string when no separator). -/
def lastToken (s : String) : String := ⟨(s.data.reverse.takeWhile (fun c => !isSpaceTab c)).reverse⟩

/-! ### 3. Discovery (dvfs_tool.cpp lines 82-128, dvfs_probe.cpp lines 48-94)

A devfreq / cpufreq directory entry is modelled by its name together with
existence flags for the attribute files the discovery code probes. -/

/-- One child of `/sys/class/devfreq`: its name and whether its
`cur_freq` / `available_frequencies` attribute files exist. -/
structure DevfreqEntry where
  name : String
  curFreq : Bool
  availableFrequencies : Bool
deriving DecidableEq

/-- The `is_blacklisted` lambda in `find_gpu_devfreq_dir`: multimedia
accelerator keywords, matched as substrings. -/
def is_blacklisted (name : String) : Bool :=
  strContains name "nvjpg" || strContains name "nvenc" || strContains name "nvdec" ||
    strContains name "vic" || strContains name "se"

/-- A GPU-like name: contains `ga10b` or `gpu` as a substring. -/
def gpuLikeName (name : String) : Bool :=
  strContains name "ga10b" || strContains name "gpu"

/-- Pass 1 of `find_gpu_devfreq_dir`: first non-blacklisted entry with a
GPU-like name exposing both attributes. -/
def gpuPass1 : List DevfreqEntry → Option DevfreqEntry
  | [] => none
  | e :: t =>
    if is_blacklisted e.name then gpuPass1 t
    else if gpuLikeName e.name && e.curFreq && e.availableFrequencies then some e
    else gpuPass1 t

/-- Pass 2 of `find_gpu_devfreq_dir`: first non-blacklisted entry
exposing both attributes. -/
def gpuPass2 : List DevfreqEntry → Option DevfreqEntry
  | [] => none
  | e :: t =>
    if is_blacklisted e.name then gpuPass2 t
    else if e.curFreq && e.availableFrequencies then some e
    else gpuPass2 t

/-- `find_gpu_devfreq_dir` (identical in dvfs_tool.cpp lines 99-128 and
dvfs_probe.cpp lines 63-94): nothing when the devfreq root is missing,
otherwise pass 1 and, only when it found nothing, pass 2. -/
def find_gpu_devfreq_dir (rootExists : Bool) (entries : List DevfreqEntry) :
    Option DevfreqEntry :=
  if !rootExists then none
  else
    match gpuPass1 entries with
    | some e => some e
    | none => gpuPass2 entries

/-- Predicate selecting pass-1 entries (used to state the claims). -/
def gpuPass1Pred (e : DevfreqEntry) : Bool :=
  !is_blacklisted e.name && (gpuLikeName e.name && (e.curFreq && e.availableFrequencies))

/-- Predicate selecting pass-2 entries (used to state the claims). -/
def gpuPass2Pred (e : DevfreqEntry) : Bool :=
  !is_blacklisted e.name && (e.curFreq && e.availableFrequencies)

/-- One child of the cpufreq policy root: its name and whether its
`scaling_cur_freq` attribute file exists. -/
structure CpufreqEntry where
  name : String
  scalingCurFreq : Bool
deriving DecidableEq

def cpufreqRoot : String := "/sys/devices/system/cpu/cpufreq"

def legacyCpuDir : String := "/sys/devices/system/cpu/cpu0/cpufreq"

/-- Full path of a policy-root child, as `list_dirs` returns it. -/
def entryPath (e : CpufreqEntry) : String := cpufreqRoot ++ "/" ++ e.name

/-- Filesystem state relevant to CPU discovery: whether the policy root
exists, its children, and the legacy `cpu0/cpufreq` path with its
`scaling_cur_freq` attribute. -/
structure CpuFs where
  rootExists : Bool
  entries : List CpufreqEntry
  legacyExists : Bool
  legacyScalingCurFreq : Bool
deriving DecidableEq

/-- `list_dirs` on the policy root: empty when the root does not exist. -/
def listDirs (f : CpuFs) : List CpufreqEntry :=
  if f.rootExists then f.entries else []

/-- The scan loop of `find_cpu_policy_dir` in dvfs_tool.cpp: first entry
whose name starts with `policy` (`rfind("policy", 0) == 0`) and whose
`scaling_cur_freq` attribute exists. -/
def cpuPolicyScan : List CpufreqEntry → Option CpufreqEntry
  | [] => none
  | e :: t =>
    if strStartsWith e.name "policy" && e.scalingCurFreq then some e else cpuPolicyScan t

/-- `find_cpu_policy_dir` (dvfs_tool.cpp lines 82-97). -/
def find_cpu_policy_dir (f : CpuFs) : Option String :=
  match (if f.rootExists then cpuPolicyScan (listDirs f) else none) with
  | some e => some (entryPath e)
  | none =>
    if f.legacyExists && f.legacyScalingCurFreq then some legacyCpuDir else none

/-- The scan loop of `find_cpu_policy_dir` in dvfs_probe.cpp: first entry
whose full path contains `policy` as a substring; no attribute check. -/
def cpuScanProbe : List CpufreqEntry → Option CpufreqEntry
  | [] => none
  | e :: t => if strContains (entryPath e) "policy" then some e else cpuScanProbe t

/-- `find_cpu_policy_dir` (dvfs_probe.cpp lines 48-61): no
`scaling_cur_freq` check on either branch. -/
def find_cpu_policy_dir_probe (f : CpuFs) : Option String :=
  match (if f.rootExists then cpuScanProbe (listDirs f) else none) with
  | some e => some (entryPath e)
  | none => if f.legacyExists then some legacyCpuDir else none

/-- CPU discovery as the claim words it (for comparison with the two
source variants): first child whose name starts with `policy` and which
contains `scaling_cur_freq`; else the legacy path only when it exists
with that attribute; else nothing. -/
def cpuDiscoveryClaim (f : CpuFs) : Option String :=
  match (listDirs f).find? (fun e => strStartsWith e.name "policy" && e.scalingCurFreq) with
  | some e => some (entryPath e)
  | none =>
    if f.legacyExists && f.legacyScalingCurFreq then some legacyCpuDir else none

/-! ### 4. `cmd_set` and `cmd_unlock` (dvfs_tool.cpp lines 364-484)

Both handlers are modelled as pure functions of: the two discovery
results, the command-line inputs, a read oracle (the value `read_text`
returns per path), an existence oracle (`fs::exists` per path), and a
write-success oracle (whether `write_text` on a path succeeds).  Each
returns its exit code, the list of (path, value) writes actually issued
to the backing store, and the list of (path, value) intended writes it
printed after `Will write:` (skipped attributes print `<skip>` and are
not in the list).  The read-back `print_kv` calls after `Applied.` only
print and are not part of the result. -/

/-- Result of `cmd_set` / `cmd_unlock`. -/
structure WriteCmdResult where
  exitCode : Nat
  writes : List (String × String)
  planned : List (String × String)
deriving DecidableEq

/-- `cmd_set` (dvfs_tool.cpp lines 364-413). -/
def cmd_set (cpuDir gpuDir : Option String) (cpu_khz gpu_hz : Option String)
    (apply : Bool) (writeOk : String → Bool) : WriteCmdResult :=
  match cpu_khz, gpu_hz with
  | some ck, some gh =>
    match cpuDir, gpuDir with
    | some cd, some gd =>
      let cpu_min_p := cd ++ "/scaling_min_freq"
      let cpu_max_p := cd ++ "/scaling_max_freq"
      let gpu_min_p := gd ++ "/min_freq"
      let gpu_max_p := gd ++ "/max_freq"
      let plan := [(cpu_min_p, ck), (cpu_max_p, ck), (gpu_min_p, gh), (gpu_max_p, gh)]
      if !apply then ⟨0, [], plan⟩
      else ⟨if plan.all (fun pv => writeOk pv.1) then 0 else 4, plan, plan⟩
    | _, _ => ⟨3, [], []⟩
  | _, _ => ⟨2, [], []⟩

/-- The GPU min/max default derivation inside `cmd_unlock` (dvfs_tool.cpp
lines 436-449): first/last token of `available_frequencies` when that
read yields a non-empty string; for each side, fall back to the current
`min_freq` / `max_freq` reading, or a hardcoded constant, when the
derived token is empty. -/
def gpuUnlockDefaults (readO : String → Option String) (gd : String) : String × String :=
  let derived : String × String :=
    match readO (gd ++ "/available_frequencies") with
    | some af =>
      if af != "" then
        let s := trimTrailStr af
        (firstToken s, lastToken s)
      else ("", "")
    | none => ("", "")
  (if derived.1 = "" then (readO (gd ++ "/min_freq")).getD "306000000" else derived.1,
   if derived.2 = "" then (readO (gd ++ "/max_freq")).getD "1020000000" else derived.2)

/-- The GPU min/max restore as claim C9 words it: platform-reported
capability attributes first, first/last token of the
available-frequencies listing only when the capability attributes are
absent. -/
def gpuUnlockDefaultsClaim (readO : String → Option String) (gd : String) : String × String :=
  let derived : String × String :=
    match readO (gd ++ "/available_frequencies") with
    | some af => (firstToken (trimTrailStr af), lastToken (trimTrailStr af))
    | none => ("", "")
  ((readO (gd ++ "/min_freq")).getD derived.1,
   (readO (gd ++ "/max_freq")).getD derived.2)

/-- `cmd_unlock` (dvfs_tool.cpp lines 416-484). -/
def cmd_unlock (cpuDir gpuDir : Option String) (apply : Bool)
    (readO : String → Option String) (existsO : String → Bool)
    (writeOk : String → Bool) : WriteCmdResult :=
  match cpuDir, gpuDir with
  | some cd, some gd =>
    let cmin := readO (cd ++ "/cpuinfo_min_freq")
    let cmax := readO (cd ++ "/cpuinfo_max_freq")
    let cpu_min_p := cd ++ "/scaling_min_freq"
    let cpu_max_p := cd ++ "/scaling_max_freq"
    let gpu_min_p := gd ++ "/min_freq"
    let gpu_max_p := gd ++ "/max_freq"
    let gov_p := gd ++ "/governor"
    let gm := gpuUnlockDefaults readO gd
    let plan :=
      (match cmin with | some v => [(cpu_min_p, v)] | none => []) ++
        (match cmax with | some v => [(cpu_max_p, v)] | none => []) ++
        [(gpu_min_p, gm.1), (gpu_max_p, gm.2)] ++
        (if existsO gov_p then [(gov_p, "nvhost_podgov")] else [])
    if !apply then ⟨0, [], plan⟩
    else ⟨if plan.all (fun pv => writeOk pv.1) then 0 else 4, plan, plan⟩
  | _, _ => ⟨3, [], []⟩

/-! ### 5. `cmd_log` sampling loop (dvfs_tool.cpp lines 487-627)

The loop is modelled by: the resolved device locations, a per-tick read
oracle `readO tick path`, the monotonic clock `ts tick` (result of
`now_ns()` at each tick), and the number of ticks completed before the
cooperative cancellation flag is observed set at the loop head. -/

/-- The device locations `cmd_log` resolves before entering the loop. -/
structure LogDiscovery where
  cpuDir : String
  gpuDir : String
  fanCd : Option String
  hasFanPwm : Bool
  tzCpu : Option String
  tzGpu : Option String
  tzSoc0 : Option String
  tzSoc1 : Option String
  tzSoc2 : Option String
  tzTj : Option String
deriving DecidableEq

/-- The fixed fan PWM path probed once before the loop. -/
def fanPwmPath : String := "/sys/devices/platform/pwm-fan/hwmon/hwmon1/pwm1"

/-- One CSV row of `cmd_log`: timestamp, delta, and the 17 attribute
values, each optional. -/
structure Row where
  ts : Int
  dt : Int
  cpu_khz : Option String
  cpu_min : Option String
  cpu_max : Option String
  cpu_gov : Option String
  gpu_hz : Option String
  gpu_min : Option String
  gpu_max : Option String
  gpu_gov : Option String
  fan_cur : Option String
  fan_max : Option String
  fan_pwm : Option String
  t_cpu : Option String
  t_gpu : Option String
  t_soc0 : Option String
  t_soc1 : Option String
  t_soc2 : Option String
  t_tj : Option String
deriving DecidableEq

/-- One tick body of the `cmd_log` loop: all 17 reads plus the
timestamp/delta computation (`prev` is the `prev_ts` scalar). -/
def mkRow (d : LogDiscovery) (readO : String → Option String) (tsv prev : Int) : Row where
  ts := tsv
  dt := if prev = 0 then 0 else tsv - prev
  cpu_khz := readO (d.cpuDir ++ "/scaling_cur_freq")
  cpu_min := readO (d.cpuDir ++ "/scaling_min_freq")
  cpu_max := readO (d.cpuDir ++ "/scaling_max_freq")
  cpu_gov := readO (d.cpuDir ++ "/scaling_governor")
  gpu_hz := readO (d.gpuDir ++ "/cur_freq")
  gpu_min := readO (d.gpuDir ++ "/min_freq")
  gpu_max := readO (d.gpuDir ++ "/max_freq")
  gpu_gov := readO (d.gpuDir ++ "/governor")
  fan_cur := match d.fanCd with | some f => readO (f ++ "/cur_state") | none => none
  fan_max := match d.fanCd with | some f => readO (f ++ "/max_state") | none => none
  fan_pwm := if d.hasFanPwm then readO fanPwmPath else none
  t_cpu := match d.tzCpu with | some z => readO (z ++ "/temp") | none => none
  t_gpu := match d.tzGpu with | some z => readO (z ++ "/temp") | none => none
  t_soc0 := match d.tzSoc0 with | some z => readO (z ++ "/temp") | none => none
  t_soc1 := match d.tzSoc1 with | some z => readO (z ++ "/temp") | none => none
  t_soc2 := match d.tzSoc2 with | some z => readO (z ++ "/temp") | none => none
  t_tj := match d.tzTj with | some z => readO (z ++ "/temp") | none => none

/-- The 19 CSV fields of a row, absent values rendered as empty fields. -/
def Row.csvFields (r : Row) : List String :=
  [toString r.ts, toString r.dt,
    r.cpu_khz.getD "", r.cpu_min.getD "", r.cpu_max.getD "", r.cpu_gov.getD "",
    r.gpu_hz.getD "", r.gpu_min.getD "", r.gpu_max.getD "", r.gpu_gov.getD "",
    r.fan_cur.getD "", r.fan_max.getD "", r.fan_pwm.getD "",
    r.t_cpu.getD "", r.t_gpu.getD "", r.t_soc0.getD "", r.t_soc1.getD "",
    r.t_soc2.getD "", r.t_tj.getD ""]

/-- The `while (!g_stop)` loop (dvfs_tool.cpp lines 562-621): `k` ticks
remain, `idx` is the tick index, `prev` the `prev_ts` scalar, `cnt` the
`line_cnt` counter.  Returns the appended rows and the 1-indexed row
numbers after which `ofs.flush()` ran inside the loop
(`if (++line_cnt % 10 == 0) ofs.flush()`). -/
def logLoop (d : LogDiscovery) (readO : Nat → String → Option String) (ts : Nat → Int) :
    Nat → Nat → Int → Nat → List Row × List Nat
  | 0, _, _, _ => ([], [])
  | k + 1, idx, prev, cnt =>
    let r := mkRow d (readO idx) (ts idx) prev
    let rest := logLoop d readO ts k (idx + 1) (ts idx) (cnt + 1)
    (r :: rest.1, (if (cnt + 1) % 10 = 0 then [cnt + 1] else []) ++ rest.2)

/-- The rows a run of the sampling loop appends over `ticks` ticks. -/
def logRows (d : LogDiscovery) (readO : Nat → String → Option String) (ts : Nat → Int)
    (ticks : Nat) : List Row :=
  (logLoop d readO ts ticks 0 0 0).1

/-- The 1-indexed row numbers after which the sink was flushed in-loop. -/
def logFlushes (d : LogDiscovery) (readO : Nat → String → Option String) (ts : Nat → Int)
    (ticks : Nat) : List Nat :=
  (logLoop d readO ts ticks 0 0 0).2

/-- What a completed `cmd_log` run produced. -/
structure LogRun where
  rows : List Row
  flushedRows : List Nat
  finalFlush : Bool
deriving DecidableEq

/-- `cmd_log` (dvfs_tool.cpp lines 487-627): discovery failure is fatal
(exit 3) before the sink is opened; sink-open failure is fatal (exit 1)
before the loop; otherwise the loop runs for `ticks` ticks (until the
cancellation flag is observed at the loop head) and the sink is flushed
once more after the loop. -/
def cmd_log (cpuDir gpuDir : Option String) (fanCd : Option String) (hasFanPwm : Bool)
    (tzCpu tzGpu tzSoc0 tzSoc1 tzSoc2 tzTj : Option String) (sinkOk : Bool)
    (readO : Nat → String → Option String) (ts : Nat → Int) (ticks : Nat) :
    Except Nat LogRun :=
  match cpuDir, gpuDir with
  | some cd, some gd =>
    if !sinkOk then .error 1
    else
      let d : LogDiscovery := ⟨cd, gd, fanCd, hasFanPwm, tzCpu, tzGpu, tzSoc0, tzSoc1, tzSoc2, tzTj⟩
      .ok ⟨logRows d readO ts ticks, logFlushes d readO ts ticks, true⟩
  | _, _ => .error 3

/-- A sysfs read oracle on which the GPU restore order is visible: the
available-frequencies listing is `"100 200"` while the current
`min_freq` / `max_freq` attributes read `"150"` / `"180"`. -/
def c9Oracle : String → Option String := fun p =>
  if p = "/sys/class/devfreq/17000000.gpu/available_frequencies" then some "100 200"
  else if p = "/sys/class/devfreq/17000000.gpu/min_freq" then some "150"
  else if p = "/sys/class/devfreq/17000000.gpu/max_freq" then some "180"
  else none

/-- A per-tick read oracle exposing only the CPU current frequency. -/
def c6ReadO : Nat → String → Option String := fun _ p =>
  if p = "/cpu/scaling_cur_freq" then some "1344000" else none

/-! ### 6. Helper lemmas -/

lemma cString_of_no_nul (l : List Nat) (h : ∀ b ∈ l, b ≠ 0) : cString l = l := by
  unfold cString
  exact List.takeWhile_eq_self_iff.mpr (by intro a ha; simpa using h a ha)

lemma trimTrail_decomp (l : List Nat) :
    l = trimTrail l ++ (l.reverse.takeWhile isTrailWS).reverse := by
  unfold trimTrail
  conv_lhs => rw [← l.reverse_reverse, ← List.takeWhile_append_dropWhile isTrailWS l.reverse]
  rw [List.reverse_append]

lemma trimTrail_suffix_ws (l : List Nat) :
    ∀ b ∈ (l.reverse.takeWhile isTrailWS).reverse, isTrailWS b = true := by
  intro b hb
  exact List.mem_takeWhile_imp (List.mem_reverse.mp hb)

lemma head?_dropWhile_not {α : Type} (p : α → Bool) (l : List α) :
    ∀ b, (l.dropWhile p).head? = some b → p b = false := by
  induction l with
  | nil => intro b hb; simp [List.dropWhile] at hb
  | cons a t ih =>
    intro b hb
    rw [List.dropWhile_cons] at hb
    by_cases h : p a
    · exact ih b (by simpa [h] using hb)
    · simp only [h, if_neg] at hb
      simp only [Bool.false_eq_true, if_false, List.head?_cons, Option.some.injEq] at hb
      subst hb
      simpa using h

lemma trimTrail_getLast?_not_ws (l : List Nat) :
    ∀ b, (trimTrail l).getLast? = some b → isTrailWS b = false := by
  intro b hb
  unfold trimTrail at hb
  rw [List.getLast?_reverse] at hb
  exact head?_dropWhile_not isTrailWS l.reverse b hb

lemma attempt_trichotomy (a : Attempt) :
    (∃ c, a = .readOk c) ∨
      (a.isTransient = true ∧ ∀ c, a ≠ .readOk c) ∨
      (a.isTransient = false ∧ ∀ c, a ≠ .readOk c) := by
  rcases a with e | e | c
  · by_cases he : (e == EAGAIN) = true
    · exact Or.inr (Or.inl ⟨by simp [Attempt.isTransient, he], by intro c h; cases h⟩)
    · exact Or.inr (Or.inr ⟨by simpa [Attempt.isTransient] using he, by intro c h; cases h⟩)
  · by_cases he : (e == EAGAIN) = true
    · exact Or.inr (Or.inl ⟨by simp [Attempt.isTransient, he], by intro c h; cases h⟩)
    · exact Or.inr (Or.inr ⟨by simpa [Attempt.isTransient] using he, by intro c h; cases h⟩)
  · exact Or.inl ⟨c, rfl⟩

lemma readTextLoop_step_ok (oracle : Nat → Attempt) (k made slept : Nat) (c : List Nat)
    (h : oracle made = .readOk c) :
    readTextLoop oracle (k + 1) made slept = ⟨some (readValue c), made + 1, slept⟩ := by
  unfold readTextLoop
  rw [h]

lemma readTextLoop_step_transient (oracle : Nat → Attempt) (k made slept : Nat)
    (ht : (oracle made).isTransient = true) (hn : ∀ c, oracle made ≠ .readOk c) :
    readTextLoop oracle (k + 1) made slept = readTextLoop oracle k (made + 1) (slept + 1) := by
  rcases he : oracle made with e | e | c
  · have ht' : (e == EAGAIN) = true := by rw [he] at ht; simpa [Attempt.isTransient] using ht
    simp [readTextLoop, he, ht']
  · have ht' : (e == EAGAIN) = true := by rw [he] at ht; simpa [Attempt.isTransient] using ht
    simp [readTextLoop, he, ht']
  · exact absurd he (hn c)

lemma readTextLoop_step_hard (oracle : Nat → Attempt) (k made slept : Nat)
    (ht : (oracle made).isTransient = false) (hn : ∀ c, oracle made ≠ .readOk c) :
    readTextLoop oracle (k + 1) made slept = ⟨none, made + 1, slept⟩ := by
  rcases he : oracle made with e | e | c
  · have ht' : (e == EAGAIN) = false := by rw [he] at ht; simpa [Attempt.isTransient] using ht
    simp [readTextLoop, he, ht']
  · have ht' : (e == EAGAIN) = false := by rw [he] at ht; simpa [Attempt.isTransient] using ht
    simp [readTextLoop, he, ht']
  · exact absurd he (hn c)

/-! ### 7. Claims about the pseudo-file accessor (C3, C4, C5) -/

/-- C3: `read_text` makes at most 3 total attempts; every attempt before
the last one was a transient resource-temporarily-unavailable failure;
a 1ms delay is performed exactly after each transient failure; when all
3 attempts fail transiently it returns the absent value after 3 attempts
and 3 delays; any other failure on the first attempt returns the absent
value immediately, after exactly 1 attempt and 0 delays. -/
theorem read_text_retries_only_transient (oracle : Nat → Attempt) :
    (read_text oracle).attemptsMade ≤ 3 ∧
    (∀ i, i + 1 < (read_text oracle).attemptsMade → (oracle i).isTransient = true) ∧
    (read_text oracle).sleeps =
      ((List.range (read_text oracle).attemptsMade).filter
        (fun i => (oracle i).isTransient)).length ∧
    ((∀ i, i < 3 → (oracle i).isTransient = true) → read_text oracle = ⟨none, 3, 3⟩) ∧
    ((oracle 0).isTransient = false → (∀ c, oracle 0 ≠ .readOk c) →
      read_text oracle = ⟨none, 1, 0⟩) := by
  unfold read_text
  rcases attempt_trichotomy (oracle 0) with ⟨c0, h0⟩ | ⟨h0t, h0n⟩ | ⟨h0t, h0n⟩
  · have h0f : (oracle 0).isTransient = false := by rw [h0]; rfl
    have s0 : readTextLoop oracle 3 0 0 = ⟨some (readValue c0), 1, 0⟩ :=
      readTextLoop_step_ok oracle 2 0 0 c0 h0
    rw [s0]
    dsimp only
    refine ⟨by omega, by intro i hi; omega, ?_, ?_, ?_⟩
    · simp [List.range_succ, h0f]
    · intro hall
      have := hall 0 (by omega)
      rw [h0f] at this
      cases this
    · intro _ hn
      exact absurd h0 (hn c0)
  · have s0 : readTextLoop oracle 3 0 0 = readTextLoop oracle 2 1 1 :=
      readTextLoop_step_transient oracle 2 0 0 h0t h0n
    rcases attempt_trichotomy (oracle 1) with ⟨c1, h1⟩ | ⟨h1t, h1n⟩ | ⟨h1t, h1n⟩
    · have h1f : (oracle 1).isTransient = false := by rw [h1]; rfl
      have s1 : readTextLoop oracle 2 1 1 = ⟨some (readValue c1), 2, 1⟩ :=
        readTextLoop_step_ok oracle 1 1 1 c1 h1
      rw [s0, s1]
      dsimp only
      refine ⟨by omega, ?_, ?_, ?_, ?_⟩
      · intro i hi
        have : i = 0 := by omega
        subst this; exact h0t
      · simp [List.range_succ, h0t, h1f]
      · intro hall
        have := hall 1 (by omega)
        rw [h1f] at this
        cases this
      · intro ht _
        rw [h0t] at ht
        cases ht
    · have s1 : readTextLoop oracle 2 1 1 = readTextLoop oracle 1 2 2 :=
        readTextLoop_step_transient oracle 1 1 1 h1t h1n
      rcases attempt_trichotomy (oracle 2) with ⟨c2, h2⟩ | ⟨h2t, h2n⟩ | ⟨h2t, h2n⟩
      · have h2f : (oracle 2).isTransient = false := by rw [h2]; rfl
        have s2 : readTextLoop oracle 1 2 2 = ⟨some (readValue c2), 3, 2⟩ :=
          readTextLoop_step_ok oracle 0 2 2 c2 h2
        rw [s0, s1, s2]
        dsimp only
        refine ⟨by omega, ?_, ?_, ?_, ?_⟩
        · intro i hi
          have : i = 0 ∨ i = 1 := by omega
          rcases this with rfl | rfl
          exacts [h0t, h1t]
        · simp [List.range_succ, h0t, h1t, h2f]
        · intro hall
          have := hall 2 (by omega)
          rw [h2f] at this
          cases this
        · intro ht _
          rw [h0t] at ht
          cases ht
      · have s2 : readTextLoop oracle 1 2 2 = readTextLoop oracle 0 3 3 :=
          readTextLoop_step_transient oracle 0 2 2 h2t h2n
        have s3 : readTextLoop oracle 0 3 3 = ⟨none, 3, 3⟩ := rfl
        rw [s0, s1, s2, s3]
        dsimp only
        refine ⟨by omega, ?_, ?_, fun _ => rfl, ?_⟩
        · intro i hi
          have : i = 0 ∨ i = 1 := by omega
          rcases this with rfl | rfl
          exacts [h0t, h1t]
        · simp [List.range_succ, h0t, h1t, h2t]
        · intro ht _
          rw [h0t] at ht
          cases ht
      · have s2 : readTextLoop oracle 1 2 2 = ⟨none, 3, 2⟩ :=
          readTextLoop_step_hard oracle 0 2 2 h2t h2n
        rw [s0, s1, s2]
        dsimp only
        refine ⟨by omega, ?_, ?_, ?_, ?_⟩
        · intro i hi
          have : i = 0 ∨ i = 1 := by omega
          rcases this with rfl | rfl
          exacts [h0t, h1t]
        · simp [List.range_succ, h0t, h1t, h2t]
        · intro hall
          have := hall 2 (by omega)
          rw [h2t] at this
          cases this
        · intro ht _
          rw [h0t] at ht
          cases ht
    · have s1 : readTextLoop oracle 2 1 1 = ⟨none, 2, 1⟩ :=
        readTextLoop_step_hard oracle 1 1 1 h1t h1n
      rw [s0, s1]
      dsimp only
      refine ⟨by omega, ?_, ?_, ?_, ?_⟩
      · intro i hi
        have : i = 0 := by omega
        subst this; exact h0t
      · simp [List.range_succ, h0t, h1t]
      · intro hall
        have := hall 1 (by omega)
        rw [h1t] at this
        cases this
      · intro ht _
        rw [h0t] at ht
        cases ht
  · have s0 : readTextLoop oracle 3 0 0 = ⟨none, 1, 0⟩ :=
      readTextLoop_step_hard oracle 2 0 0 h0t h0n
    rw [s0]
    dsimp only
    refine ⟨by omega, by intro i hi; omega, ?_, ?_, fun _ _ => rfl⟩
    · simp [List.range_succ, h0t]
    · intro hall
      have := hall 0 (by omega)
      rw [h0t] at this
      cases this

/-- C3 witness: a permission-denied open (errno 13) fails immediately
with no delay; an all-EAGAIN oracle exhausts 3 attempts with 3 delays. -/
theorem read_text_retries_witness :
    read_text (fun _ => .openFail 13) = ⟨none, 1, 0⟩ ∧
    read_text (fun _ => .openFail EAGAIN) = ⟨none, 3, 3⟩ := by
  constructor
  · exact (read_text_retries_only_transient (fun _ => .openFail 13)).2.2.2.2 (by decide)
      (by intro c h; exact Attempt.noConfusion h)
  · exact (read_text_retries_only_transient (fun _ => .openFail EAGAIN)).2.2.2.1
      (by intro i _; decide)

/-- C4 counterexample: for file content `[97, 0, 98]` (a NUL byte between
two letters), a successful `read_text` returns `[97]` — the interior
bytes after the NUL are not preserved, because the C++ code builds a
`std::string` from a NUL-terminated `char*`.  The claim's predicted
value (trailing whitespace stripped, interior preserved) is the full
3-byte content. -/
theorem read_text_nul_counterexample :
    (read_text (fun _ => .readOk [97, 0, 98])).result = some [97] ∧
    trimTrail (List.take 4095 [97, 0, 98]) = [97, 0, 98] ∧
    (read_text (fun _ => .readOk [97, 0, 98])).result ≠
      some (trimTrail (List.take 4095 [97, 0, 98])) := by decide

/-- C4 (amended): when the first 4095 bytes of the content hold no NUL
byte, a successful `read_text` returns the at-most-4095-byte truncation
of the content with a (possibly empty) run of trailing
newline/CR/space/tab bytes removed, the remainder preserved exactly: the
truncated content splits as result plus an all-whitespace suffix, the
result does not end in such a byte, and the result is at most 4095
bytes. -/
theorem read_text_success_trims_trailing (content : List Nat)
    (hnz : ∀ b ∈ content.take 4095, b ≠ 0) :
    (read_text (fun _ => .readOk content)).result = some (trimTrail (content.take 4095)) ∧
    ∃ ws, content.take 4095 = trimTrail (content.take 4095) ++ ws ∧
      (∀ b ∈ ws, isTrailWS b = true) ∧
      (∀ b, (trimTrail (content.take 4095)).getLast? = some b → isTrailWS b = false) ∧
      (trimTrail (content.take 4095)).length ≤ 4095 := by
  have hcs : cString (content.take 4095) = content.take 4095 := cString_of_no_nul _ hnz
  constructor
  · show (readTextLoop _ 3 0 0).result = _
    rw [readTextLoop_step_ok _ 2 0 0 content rfl]
    unfold readValue
    rw [hcs]
  · refine ⟨((content.take 4095).reverse.takeWhile isTrailWS).reverse, trimTrail_decomp _,
      trimTrail_suffix_ws _, trimTrail_getLast?_not_ws _, ?_⟩
    have hs : (content.take 4095).reverse.dropWhile isTrailWS <:+ (content.take 4095).reverse :=
      List.dropWhile_suffix isTrailWS
    have h1 : (trimTrail (content.take 4095)).length ≤ (content.take 4095).length := by
      unfold trimTrail
      rw [List.length_reverse]
      exact le_trans hs.length_le (le_of_eq (List.length_reverse _))
    exact le_trans h1 (List.length_take_le 4095 content)

/-- C4 witness: content `"hi\n "` (bytes 104 105 10 32) reads back as
`"hi"` (bytes 104 105). -/
theorem read_text_trims_witness :
    (read_text (fun _ => .readOk [104, 105, 10, 32])).result = some [104, 105] := by
  have h := (read_text_success_trims_trailing [104, 105, 10, 32] (by decide)).1
  rw [h]
  decide

/-- C5: the payload `write_text` hands to the single `write` syscall is
the caller's value unchanged when it already ends in a newline, the
value plus exactly one appended newline otherwise (including the empty
value); the payload always ends in a newline; the call returns true if
and only if the open succeeded and the `write` return value equals the
full payload byte count; at most one `write` syscall is issued (no
retry). -/
theorem write_text_newline_discipline (openOk : Bool) (ret : Int) (val : List Nat) :
    (val.getLast? = some 10 → payload val = val) ∧
    (val.getLast? ≠ some 10 → payload val = val ++ [10]) ∧
    (payload val).getLast? = some 10 ∧
    ((write_text openOk ret val).success = true ↔
      openOk = true ∧ ret = ((payload val).length : Int)) ∧
    (write_text openOk ret val).writeCalls ≤ 1 ∧
    (openOk = true → (write_text openOk ret val).written = payload val) := by
  refine ⟨?_, ?_, ?_, ?_, ?_, ?_⟩
  · intro h
    rcases val with _ | ⟨a, t⟩
    · simp at h
    · simp [payload, h]
  · intro h
    rcases val with _ | ⟨a, t⟩
    · simp [payload]
    · simp [payload, h]
  · unfold payload
    split
    · exact List.getLast?_concat _
    · rename_i hcond
      simp at hcond
      exact hcond.2
  · cases openOk <;> simp [write_text]
  · cases openOk <;> simp [write_text]
  · intro h; subst h; simp [write_text]

/-- C5 witness: `"a"` gets one newline appended, `"a\n"` is unchanged,
and a full write of the 2-byte payload reports success. -/
theorem write_text_newline_witness :
    payload [97] = [97, 10] ∧ payload [97, 10] = [97, 10] ∧
    (write_text true 2 [97]).success = true := by
  refine ⟨?_, ?_, ?_⟩
  · exact (write_text_newline_discipline true 2 [97]).2.1 (by decide)
  · exact (write_text_newline_discipline true 2 [97, 10]).1 (by decide)
  · exact (write_text_newline_discipline true 2 [97]).2.2.2.1.mpr ⟨rfl, by decide⟩

/-! ### 8. Claims about discovery (C2, C8) -/

lemma gpuPass1_eq_find (l : List DevfreqEntry) : gpuPass1 l = l.find? gpuPass1Pred := by
  induction l with
  | nil => rfl
  | cons e t ih =>
    cases hb : is_blacklisted e.name <;> cases hg : gpuLikeName e.name <;>
      cases hc : e.curFreq <;> cases ha : e.availableFrequencies <;>
      simp [gpuPass1, gpuPass1Pred, List.find?_cons, hb, hg, hc, ha, ih]

lemma gpuPass2_eq_find (l : List DevfreqEntry) : gpuPass2 l = l.find? gpuPass2Pred := by
  induction l with
  | nil => rfl
  | cons e t ih =>
    cases hb : is_blacklisted e.name <;> cases hc : e.curFreq <;>
      cases ha : e.availableFrequencies <;>
      simp [gpuPass2, gpuPass2Pred, List.find?_cons, hb, hc, ha, ih]

/-- C2: GPU discovery returns the first non-excluded entry with a
GPU-like name and both required attributes when one exists (pass 1);
only when pass 1 finds nothing does it return the first non-excluded
entry with both attributes (pass 2); and on the two synthetic trees of
the claim — excluded + neutral + GPU-keyword entries (all with both
attributes), and a lone neutral entry — it returns the GPU-keyword
entry and the neutral entry respectively. -/
theorem gpu_discovery_two_pass (entries : List DevfreqEntry) :
    (∀ e, entries.find? gpuPass1Pred = some e →
      find_gpu_devfreq_dir true entries = some e) ∧
    (entries.find? gpuPass1Pred = none →
      find_gpu_devfreq_dir true entries = entries.find? gpuPass2Pred) ∧
    find_gpu_devfreq_dir false entries = none ∧
    find_gpu_devfreq_dir true
      [⟨"nvdec0", true, true⟩, ⟨"emc0", true, true⟩, ⟨"17000000.gpu", true, true⟩] =
      some ⟨"17000000.gpu", true, true⟩ ∧
    find_gpu_devfreq_dir true [⟨"emc0", true, true⟩] = some ⟨"emc0", true, true⟩ := by
  refine ⟨?_, ?_, rfl, by decide, by decide⟩
  · intro e he
    unfold find_gpu_devfreq_dir
    rw [if_neg (by simp), gpuPass1_eq_find, he]
  · intro he
    unfold find_gpu_devfreq_dir
    rw [if_neg (by simp), gpuPass1_eq_find, he, gpuPass2_eq_find]

/-- C2 witness: with one excluded entry and one neutral entry (both
attributes present), pass 2 returns the neutral entry. -/
theorem gpu_discovery_two_pass_witness :
    find_gpu_devfreq_dir true [⟨"nvjpg0", true, true⟩, ⟨"emc1", true, true⟩] =
      some ⟨"emc1", true, true⟩ := by
  have h := (gpu_discovery_two_pass [⟨"nvjpg0", true, true⟩, ⟨"emc1", true, true⟩]).2.1
    (by decide)
  rw [h]
  decide

lemma cpuPolicyScan_eq_find (l : List CpufreqEntry) :
    cpuPolicyScan l = l.find? (fun e => strStartsWith e.name "policy" && e.scalingCurFreq) := by
  induction l with
  | nil => rfl
  | cons e t ih =>
    cases hp : strStartsWith e.name "policy" <;> cases hc : e.scalingCurFreq <;>
      simp [cpuPolicyScan, List.find?_cons, hp, hc, ih]

lemma cpuScanProbe_eq_find (l : List CpufreqEntry) :
    cpuScanProbe l = l.find? (fun e => strContains (entryPath e) "policy") := by
  induction l with
  | nil => rfl
  | cons e t ih =>
    cases hp : strContains (entryPath e) "policy" <;>
      simp [cpuScanProbe, List.find?_cons, hp, ih]

/-- C8 counterexample: on a tree with a single `policy0` child that does
NOT expose `scaling_cur_freq` and no legacy path, the dvfs_probe variant
of CPU discovery (cited by the claim) returns that child, while the
claim says discovery returns NotFound. -/
theorem cpu_discovery_counterexample :
    find_cpu_policy_dir_probe ⟨true, [⟨"policy0", false⟩], false, false⟩ =
      some "/sys/devices/system/cpu/cpufreq/policy0" ∧
    cpuDiscoveryClaim ⟨true, [⟨"policy0", false⟩], false, false⟩ = none ∧
    find_cpu_policy_dir_probe ⟨true, [⟨"policy0", false⟩], false, false⟩ ≠
      cpuDiscoveryClaim ⟨true, [⟨"policy0", false⟩], false, false⟩ := by decide

/-- C8 (amended): the dvfs_tool variant of CPU discovery behaves exactly
as the claim states (first `policy`-prefixed child with
`scaling_cur_freq`, then the legacy path only when it exists with that
attribute, else NotFound); the dvfs_probe variant instead takes the
first child whose path contains `policy` with no attribute check, and
falls back to the legacy path whenever it merely exists. -/
theorem cpu_discovery_variants (f : CpuFs) :
    find_cpu_policy_dir f = cpuDiscoveryClaim f ∧
    find_cpu_policy_dir_probe f =
      (match (listDirs f).find? (fun e => strContains (entryPath e) "policy") with
       | some e => some (entryPath e)
       | none => if f.legacyExists then some legacyCpuDir else none) := by
  constructor
  · unfold find_cpu_policy_dir cpuDiscoveryClaim
    cases hr : f.rootExists
    · simp [listDirs, hr]
    · rw [if_pos rfl, cpuPolicyScan_eq_find]
  · unfold find_cpu_policy_dir_probe
    cases hr : f.rootExists
    · simp [listDirs, hr]
    · rw [if_pos rfl, cpuScanProbe_eq_find]

/-! ### 9. Claims about the set/unlock commands (C1, C9) -/

/-- C1: without the `--apply` flag, `cmd_set` and `cmd_unlock` issue zero
writes to the backing store for every input; the plan they print is
exactly the write list that the same invocation with `--apply` would
issue; and whenever discovery succeeded (and, for `set`, both value
flags are present) the dry run returns the success exit code 0. -/
theorem write_commands_dry_run (cpuDir gpuDir cpu_khz gpu_hz : Option String)
    (readO : String → Option String) (existsO writeOk : String → Bool) :
    (cmd_set cpuDir gpuDir cpu_khz gpu_hz false writeOk).writes = [] ∧
    (cmd_unlock cpuDir gpuDir false readO existsO writeOk).writes = [] ∧
    (cmd_set cpuDir gpuDir cpu_khz gpu_hz false writeOk).planned =
      (cmd_set cpuDir gpuDir cpu_khz gpu_hz true writeOk).writes ∧
    (cmd_unlock cpuDir gpuDir false readO existsO writeOk).planned =
      (cmd_unlock cpuDir gpuDir true readO existsO writeOk).writes ∧
    (cpuDir.isSome → gpuDir.isSome → cpu_khz.isSome → gpu_hz.isSome →
      (cmd_set cpuDir gpuDir cpu_khz gpu_hz false writeOk).exitCode = 0) ∧
    (cpuDir.isSome → gpuDir.isSome →
      (cmd_unlock cpuDir gpuDir false readO existsO writeOk).exitCode = 0) := by
  rcases cpuDir with _ | cd <;> rcases gpuDir with _ | gd <;>
    rcases cpu_khz with _ | ck <;> rcases gpu_hz with _ | gh <;>
    simp [cmd_set, cmd_unlock]

/-- C1 witness: concrete dry runs of `set` and `unlock` with resolved
directories exit 0 (and, by the main theorem, performed no writes). -/
theorem write_commands_dry_run_witness :
    (cmd_set (some "/sys/devices/system/cpu/cpufreq/policy0")
      (some "/sys/class/devfreq/17000000.gpu") (some "1344000") (some "918000000")
      false (fun _ => false)).exitCode = 0 ∧
    (cmd_unlock (some "/sys/devices/system/cpu/cpufreq/policy0")
      (some "/sys/class/devfreq/17000000.gpu") false (fun _ => none) (fun _ => true)
      (fun _ => false)).exitCode = 0 := by
  constructor
  · exact (write_commands_dry_run (some "/sys/devices/system/cpu/cpufreq/policy0")
      (some "/sys/class/devfreq/17000000.gpu") (some "1344000") (some "918000000")
      (fun _ => none) (fun _ => true) (fun _ => false)).2.2.2.2.1 rfl rfl rfl rfl
  · exact (write_commands_dry_run (some "/sys/devices/system/cpu/cpufreq/policy0")
      (some "/sys/class/devfreq/17000000.gpu") (some "1344000") (some "918000000")
      (fun _ => none) (fun _ => true) (fun _ => false)).2.2.2.2.2 rfl rfl

lemma mem_optEntry_fst {o : Option String} {p : String} {x : String × String}
    (h : x ∈ (match o with
      | some v => [(p, v)] | none => ([] : List (String × String)))) :
    x.1 = p := by
  cases o <;> simp_all

lemma append_ne_of_last_ne (a b s t : String) (hs : s.data ≠ []) (ht : t.data ≠ [])
    (h : s.data.getLast? ≠ t.data.getLast?) : a ++ s ≠ b ++ t := by
  intro he
  have hd : a.data ++ s.data = b.data ++ t.data := congrArg String.data he
  have h1 : (a.data ++ s.data).getLast? = s.data.getLast? :=
    List.getLast?_append_of_ne_nil _ hs
  have h2 : (b.data ++ t.data).getLast? = t.data.getLast? :=
    List.getLast?_append_of_ne_nil _ ht
  rw [← h1, hd, h2] at h
  exact h rfl

/-- C9 counterexample: with both the available-frequencies listing and
the min/max attribute reads present, `cmd_unlock` derives the GPU
bounds from the listing (`("100", "200")`), not from the attribute
reads as the claim predicts (`("150", "180")`): the code's priority is
the reverse of the claim's. -/
theorem gpu_unlock_defaults_counterexample :
    gpuUnlockDefaults c9Oracle "/sys/class/devfreq/17000000.gpu" = ("100", "200") ∧
    gpuUnlockDefaultsClaim c9Oracle "/sys/class/devfreq/17000000.gpu" = ("150", "180") ∧
    gpuUnlockDefaults c9Oracle "/sys/class/devfreq/17000000.gpu" ≠
      gpuUnlockDefaultsClaim c9Oracle "/sys/class/devfreq/17000000.gpu" := by decide

/-- C9 (amended): the unlock operation derives the GPU bounds from the
first and last whitespace-delimited token of the available-frequencies
listing whenever that listing is present with non-empty tokens,
regardless of the min/max attribute values; only when the listing is
absent (or empty) does it fall back to the current `min_freq` /
`max_freq` readings, or to hardcoded constants when those are also
absent; in apply mode those derived bounds are written to the GPU
min/max attributes, and the default governor string is written if and
only if the governor attribute exists. -/
theorem gpu_unlock_restore (readO : String → Option String) (existsO writeOk : String → Bool)
    (cd gd : String) :
    (∀ af, readO (gd ++ "/available_frequencies") = some af → af ≠ "" →
      firstToken (trimTrailStr af) ≠ "" → lastToken (trimTrailStr af) ≠ "" →
      gpuUnlockDefaults readO gd = (firstToken (trimTrailStr af), lastToken (trimTrailStr af))) ∧
    (readO (gd ++ "/available_frequencies") = none →
      gpuUnlockDefaults readO gd =
        ((readO (gd ++ "/min_freq")).getD "306000000",
         (readO (gd ++ "/max_freq")).getD "1020000000")) ∧
    (readO (gd ++ "/available_frequencies") = some "" →
      gpuUnlockDefaults readO gd =
        ((readO (gd ++ "/min_freq")).getD "306000000",
         (readO (gd ++ "/max_freq")).getD "1020000000")) ∧
    ((gd ++ "/min_freq", (gpuUnlockDefaults readO gd).1) ∈
      (cmd_unlock (some cd) (some gd) true readO existsO writeOk).writes) ∧
    ((gd ++ "/max_freq", (gpuUnlockDefaults readO gd).2) ∈
      (cmd_unlock (some cd) (some gd) true readO existsO writeOk).writes) ∧
    ((gd ++ "/governor", "nvhost_podgov") ∈
        (cmd_unlock (some cd) (some gd) true readO existsO writeOk).writes ↔
      existsO (gd ++ "/governor") = true) := by
  refine ⟨?_, ?_, ?_, ?_, ?_, ?_⟩
  · intro af haf hne h1 h2
    unfold gpuUnlockDefaults
    rw [haf]
    simp only [bne_iff_ne, ne_eq, hne, not_false_eq_true, if_true]
    simp [h1, h2]
  · intro haf
    unfold gpuUnlockDefaults
    rw [haf]
    simp
  · intro haf
    unfold gpuUnlockDefaults
    rw [haf]
    simp
  · simp [cmd_unlock]
  · simp [cmd_unlock]
  · have n1 : gd ++ "/governor" ≠ cd ++ "/scaling_min_freq" :=
      append_ne_of_last_ne _ _ _ _ (by decide) (by decide) (by decide)
    have n2 : gd ++ "/governor" ≠ cd ++ "/scaling_max_freq" :=
      append_ne_of_last_ne _ _ _ _ (by decide) (by decide) (by decide)
    have n3 : gd ++ "/governor" ≠ gd ++ "/min_freq" :=
      append_ne_of_last_ne _ _ _ _ (by decide) (by decide) (by decide)
    have n4 : gd ++ "/governor" ≠ gd ++ "/max_freq" :=
      append_ne_of_last_ne _ _ _ _ (by decide) (by decide) (by decide)
    have hw : (cmd_unlock (some cd) (some gd) true readO existsO writeOk).writes =
        (match readO (cd ++ "/cpuinfo_min_freq") with
          | some v => [(cd ++ "/scaling_min_freq", v)] | none => []) ++
          (match readO (cd ++ "/cpuinfo_max_freq") with
            | some v => [(cd ++ "/scaling_max_freq", v)] | none => []) ++
          [(gd ++ "/min_freq", (gpuUnlockDefaults readO gd).1),
            (gd ++ "/max_freq", (gpuUnlockDefaults readO gd).2)] ++
          (if existsO (gd ++ "/governor") then [(gd ++ "/governor", "nvhost_podgov")]
            else []) := rfl
    constructor
    · intro hmem
      by_contra hx
      have hx' : existsO (gd ++ "/governor") = false := by
        cases hex : existsO (gd ++ "/governor")
        · rfl
        · exact absurd hex hx
      rw [hw, List.mem_append, List.mem_append, List.mem_append] at hmem
      rcases hmem with ((hA | hB) | hC) | hD
      · exact n1 (mem_optEntry_fst hA)
      · exact n2 (mem_optEntry_fst hB)
      · rw [List.mem_cons, List.mem_cons] at hC
        rcases hC with h | h | h
        · exact n3 (congrArg Prod.fst h)
        · exact n4 (congrArg Prod.fst h)
        · exact absurd h (List.not_mem_nil _)
      · rw [hx'] at hD
        simp at hD
    · intro hex
      rw [hw, hex]
      simp

/-- C9 witness: on the oracle above, the derived bounds are the first
and last token of the listing. -/
theorem gpu_unlock_restore_witness :
    gpuUnlockDefaults c9Oracle "/sys/class/devfreq/17000000.gpu" = ("100", "200") := by
  have h := (gpu_unlock_restore c9Oracle (fun _ => false) (fun _ => false) "/cpu"
    "/sys/class/devfreq/17000000.gpu").1 "100 200" (by decide) (by decide) (by decide)
    (by decide)
  rw [h]
  decide

/-! ### 10. Claims about the sampling loop (C6, C7, C10) -/

lemma logLoop_rows_length (d : LogDiscovery) (readO : Nat → String → Option String)
    (ts : Nat → Int) : ∀ k idx prev cnt, (logLoop d readO ts k idx prev cnt).1.length = k := by
  intro k
  induction k with
  | zero => intro idx prev cnt; rfl
  | succ k ih => intro idx prev cnt; simp [logLoop, ih]

lemma logLoop_rows_get? (d : LogDiscovery) (readO : Nat → String → Option String)
    (ts : Nat → Int) : ∀ k j idx prev cnt, j < k →
    (logLoop d readO ts k idx prev cnt).1.get? j =
      some (mkRow d (readO (idx + j)) (ts (idx + j))
        (if j = 0 then prev else ts (idx + j - 1))) := by
  intro k
  induction k with
  | zero => intro j idx prev cnt hj; omega
  | succ k ih =>
    intro j idx prev cnt hj
    rcases j with _ | j
    · simp [logLoop]
    · have h := ih j (idx + 1) (ts idx) (cnt + 1) (by omega)
      have e2 : (if j = 0 then ts idx else ts (idx + 1 + j - 1)) = ts (idx + j) := by
        rcases j with _ | j'
        · simp
        · have e : idx + 1 + (j' + 1) - 1 = idx + (j' + 1) := by omega
          simp [e]
      have e1 : idx + 1 + j = idx + (j + 1) := by omega
      rw [e2, e1] at h
      show (logLoop d readO ts (k + 1) idx prev cnt).1.get? (j + 1) = _
      have hstep : (logLoop d readO ts (k + 1) idx prev cnt).1 =
          mkRow d (readO idx) (ts idx) prev ::
            (logLoop d readO ts k (idx + 1) (ts idx) (cnt + 1)).1 := rfl
      rw [hstep, List.get?_cons_succ, h]
      have e3 : idx + (j + 1) - 1 = idx + j := by omega
      simp [e3]

lemma logLoop_flushes (d : LogDiscovery) (readO : Nat → String → Option String)
    (ts : Nat → Int) : ∀ k idx prev cnt,
    (logLoop d readO ts k idx prev cnt).2 =
      ((List.range k).map (fun j => cnt + j + 1)).filter (fun r => r % 10 == 0) := by
  intro k
  induction k with
  | zero => intro idx prev cnt; rfl
  | succ k ih =>
    intro idx prev cnt
    have hstep : (logLoop d readO ts (k + 1) idx prev cnt).2 =
        (if (cnt + 1) % 10 = 0 then [cnt + 1] else []) ++
          (logLoop d readO ts k (idx + 1) (ts idx) (cnt + 1)).2 := rfl
    rw [hstep, ih]
    rw [List.range_succ_eq_map]
    simp only [List.map_cons, List.map_map]
    have hm : (List.range k).map ((fun j => cnt + j + 1) ∘ (· + 1)) =
        (List.range k).map (fun j => cnt + 1 + j + 1) := by
      apply List.map_congr_left
      intro a _
      simp [Function.comp]
      omega
    rw [hm]
    rw [List.filter_cons]
    by_cases hc : (cnt + 1) % 10 = 0
    · simp [hc]
    · have : ((cnt + 0 + 1) % 10 == 0) = false := by
        simp [hc]
      simp [hc, this]

lemma logFlushes_mem (d : LogDiscovery) (readO : Nat → String → Option String)
    (ts : Nat → Int) (ticks r : Nat) :
    r ∈ logFlushes d readO ts ticks ↔ 1 ≤ r ∧ r ≤ ticks ∧ r % 10 = 0 := by
  unfold logFlushes
  rw [logLoop_flushes]
  simp only [List.mem_filter, List.mem_map, List.mem_range, beq_iff_eq]
  constructor
  · rintro ⟨⟨j, hj, rfl⟩, hmod⟩
    refine ⟨by omega, by omega, hmod⟩
  · rintro ⟨h1, h2, h3⟩
    exact ⟨⟨r - 1, by omega, by omega⟩, h3⟩

lemma logRows_length (d : LogDiscovery) (readO : Nat → String → Option String)
    (ts : Nat → Int) (ticks : Nat) : (logRows d readO ts ticks).length = ticks :=
  logLoop_rows_length d readO ts ticks 0 0 0

lemma logRows_get? (d : LogDiscovery) (readO : Nat → String → Option String)
    (ts : Nat → Int) (ticks j : Nat) (hj : j < ticks) :
    (logRows d readO ts ticks).get? j =
      some (mkRow d (readO j) (ts j) (if j = 0 then 0 else ts (j - 1))) := by
  have h := logLoop_rows_get? d readO ts ticks j 0 0 0 hj
  simpa using h

/-- C6: failure of CPU or GPU discovery is fatal (exit 3) before the
loop, a sink-open failure is fatal (exit 1) before the loop; once the
loop runs it appends exactly one row per tick regardless of any read
outcome (its length is the tick count for every oracle), each row's
fields are exactly the tick's independent reads (row j is
`mkRow d (readO j) ...`, so one field's failure cannot affect another),
an unresolved fan role yields rows whose fan fields are absent and whose
CSV fan columns are empty while every other field is the oracle's value,
and every row renders as a full 19-field CSV record. -/
theorem log_partial_failure_tolerated (d : LogDiscovery) (anyCpu anyGpu : Option String)
    (readO : Nat → String → Option String) (ts : Nat → Int) (ticks : Nat) :
    cmd_log none anyGpu d.fanCd d.hasFanPwm d.tzCpu d.tzGpu d.tzSoc0 d.tzSoc1 d.tzSoc2
      d.tzTj true readO ts ticks = .error 3 ∧
    cmd_log anyCpu none d.fanCd d.hasFanPwm d.tzCpu d.tzGpu d.tzSoc0 d.tzSoc1 d.tzSoc2
      d.tzTj true readO ts ticks = .error 3 ∧
    cmd_log (some d.cpuDir) (some d.gpuDir) d.fanCd d.hasFanPwm d.tzCpu d.tzGpu d.tzSoc0
      d.tzSoc1 d.tzSoc2 d.tzTj false readO ts ticks = .error 1 ∧
    cmd_log (some d.cpuDir) (some d.gpuDir) d.fanCd d.hasFanPwm d.tzCpu d.tzGpu d.tzSoc0
      d.tzSoc1 d.tzSoc2 d.tzTj true readO ts ticks =
      .ok ⟨logRows d readO ts ticks, logFlushes d readO ts ticks, true⟩ ∧
    (logRows d readO ts ticks).length = ticks ∧
    (∀ j, j < ticks → (logRows d readO ts ticks).get? j =
      some (mkRow d (readO j) (ts j) (if j = 0 then 0 else ts (j - 1)))) ∧
    (d.fanCd = none → ∀ r ∈ logRows d readO ts ticks,
      r.fan_cur = none ∧ r.fan_max = none ∧
      r.csvFields.get? 10 = some "" ∧ r.csvFields.get? 11 = some "") ∧
    (∀ r ∈ logRows d readO ts ticks, r.csvFields.length = 19) := by
  refine ⟨?_, ?_, rfl, rfl, logRows_length d readO ts ticks, ?_, ?_, ?_⟩
  · cases anyGpu <;> rfl
  · cases anyCpu <;> rfl
  · intro j hj
    exact logRows_get? d readO ts ticks j hj
  · intro hf r hr
    obtain ⟨j, hj⟩ := List.mem_iff_get?.mp hr
    have hjlt : j < ticks := by
      have := (List.get?_eq_some.mp hj).1
      rwa [logRows_length d readO ts ticks] at this
    rw [logRows_get? d readO ts ticks j hjlt] at hj
    have hr' : r = mkRow d (readO j) (ts j)
        (if j = 0 then 0 else ts (j - 1)) := by
      injection hj.symm
    subst hr'
    refine ⟨by simp [mkRow, hf], by simp [mkRow, hf], ?_, ?_⟩
    · simp [Row.csvFields, mkRow, hf]
    · simp [Row.csvFields, mkRow, hf]
  · intro r _
    rfl

/-- C6 witness: one tick with the fan role unresolved still produces a
row whose CPU field holds the oracle's value, and that row's CSV fan
column is empty. -/
theorem log_partial_failure_witness :
    (logRows ⟨"/cpu", "/gpu", none, false, none, none, none, none, none, none⟩ c6ReadO
        (fun _ => 5) 1).get? 0 =
      some (mkRow ⟨"/cpu", "/gpu", none, false, none, none, none, none, none, none⟩
        (c6ReadO 0) 5 0) ∧
    (mkRow (⟨"/cpu", "/gpu", none, false, none, none, none, none, none, none⟩ : LogDiscovery)
      (c6ReadO 0) 5 0).csvFields.get? 10 = some "" := by
  have h := (log_partial_failure_tolerated
    ⟨"/cpu", "/gpu", none, false, none, none, none, none, none, none⟩ none none c6ReadO
    (fun _ => 5) 1).2.2.2.2.2.1 0 (by decide)
  constructor
  · simpa using h
  · have hm : (mkRow (⟨"/cpu", "/gpu", none, false, none, none, none, none, none, none⟩ :
        LogDiscovery) (c6ReadO 0) 5 0) ∈
        logRows ⟨"/cpu", "/gpu", none, false, none, none, none, none, none, none⟩ c6ReadO
          (fun _ => 5) 1 := by
      have h' := h
      simp only [show ((fun _ => (5 : Int)) 0) = 5 from rfl] at h'
      exact List.get?_mem (by simpa using h')
    exact ((log_partial_failure_tolerated
      ⟨"/cpu", "/gpu", none, false, none, none, none, none, none, none⟩ none none c6ReadO
      (fun _ => 5) 1).2.2.2.2.2.2.1 rfl _ hm).2.2.1

/-- C7: the first emitted row's dt_ns is exactly zero, and every later
row's dt_ns is the current row's monotonic timestamp minus the
immediately preceding row's, provided the monotonic clock never reads
exactly 0 (the code reuses 0 as the no-previous-sample sentinel). -/
theorem log_dt_zero_then_delta (d : LogDiscovery)
    (readO : Nat → String → Option String) (ts : Nat → Int) (ticks : Nat)
    (hts : ∀ i, ts i ≠ 0) :
    (∀ r, (logRows d readO ts ticks).get? 0 = some r → r.dt = 0 ∧ r.ts = ts 0) ∧
    (∀ j r, (logRows d readO ts ticks).get? (j + 1) = some r →
      r.dt = ts (j + 1) - ts j ∧ r.ts = ts (j + 1)) ∧
    cmd_log (some d.cpuDir) (some d.gpuDir) d.fanCd d.hasFanPwm d.tzCpu d.tzGpu d.tzSoc0
      d.tzSoc1 d.tzSoc2 d.tzTj true readO ts ticks =
      .ok ⟨logRows d readO ts ticks, logFlushes d readO ts ticks, true⟩ := by
  refine ⟨?_, ?_, rfl⟩
  · intro r hr
    have hlt : 0 < ticks := by
      have := (List.get?_eq_some.mp hr).1
      rwa [logRows_length d readO ts ticks] at this
    rw [logRows_get? d readO ts ticks 0 hlt] at hr
    have hr' : r = mkRow d (readO 0) (ts 0) (if 0 = 0 then 0 else ts (0 - 1)) := by
      injection hr.symm
    subst hr'
    simp [mkRow]
  · intro j r hr
    have hlt : j + 1 < ticks := by
      have := (List.get?_eq_some.mp hr).1
      rwa [logRows_length d readO ts ticks] at this
    rw [logRows_get? d readO ts ticks (j + 1) hlt] at hr
    have hr' : r = mkRow d (readO (j + 1)) (ts (j + 1))
        (if j + 1 = 0 then 0 else ts (j + 1 - 1)) := by
      injection hr.symm
    subst hr'
    refine ⟨?_, rfl⟩
    show (if ts j = 0 then 0 else ts (j + 1) - ts j) = ts (j + 1) - ts j
    rw [if_neg (hts j)]

/-- C7 witness: with clock `i ↦ i + 1` over two ticks, the second row's
dt is 1 (= ts 1 - ts 0); the first row's dt is 0 by the main theorem. -/
theorem log_dt_witness :
    ∃ r, (logRows ⟨"/cpu", "/gpu", none, false, none, none, none, none, none, none⟩
        (fun _ _ => none) (fun i => (i : Int) + 1) 2).get? 1 = some r ∧ r.dt = 1 := by
  have hg := logRows_get? ⟨"/cpu", "/gpu", none, false, none, none, none, none, none, none⟩
    (fun _ _ => none) (fun i => (i : Int) + 1) 2 1 (by omega)
  refine ⟨_, hg, ?_⟩
  have h := (log_dt_zero_then_delta
    ⟨"/cpu", "/gpu", none, false, none, none, none, none, none, none⟩ (fun _ _ => none)
    (fun i => (i : Int) + 1) 2 (by intro i; show (i : Int) + 1 ≠ 0; omega)).2.1 0 _ hg
  rw [h.1]
  norm_num

/-- C10: a completed `cmd_log` run flushes the sink inside the loop
after exactly the rows whose 1-based index is a positive multiple of 10
within the run, and performs one more unconditional flush after the
loop (the `finalFlush` field of the returned run). -/
theorem log_flush_every_ten (d : LogDiscovery)
    (readO : Nat → String → Option String) (ts : Nat → Int) (ticks : Nat) :
    cmd_log (some d.cpuDir) (some d.gpuDir) d.fanCd d.hasFanPwm d.tzCpu d.tzGpu d.tzSoc0
      d.tzSoc1 d.tzSoc2 d.tzTj true readO ts ticks =
      .ok ⟨logRows d readO ts ticks, logFlushes d readO ts ticks, true⟩ ∧
    (∀ r, r ∈ logFlushes d readO ts ticks ↔ 1 ≤ r ∧ r ≤ ticks ∧ r % 10 = 0) := by
  exact ⟨rfl, fun r => logFlushes_mem d readO ts ticks r⟩

/-- C10 witness: in a 25-tick run the sink is flushed after row 10. -/
theorem log_flush_witness :
    10 ∈ logFlushes ⟨"/cpu", "/gpu", none, false, none, none, none, none, none, none⟩
      (fun _ _ => none) (fun _ => 5) 25 := by
  exact ((log_flush_every_ten ⟨"/cpu", "/gpu", none, false, none, none, none, none, none,
    none⟩ (fun _ _ => none) (fun _ => 5) 25).2 10).mpr ⟨by decide, by decide, by decide⟩

end DvfsTool
